import Mathlib

set_option maxRecDepth 4000

/-!
Shallow embedding of the viral-growth simulation engine of the `viewbot`
repository (files `bot/src/engine/analytics/growthAlgorithm.js`,
`bot/src/engine/analytics/metricsCalculator.js`,
`bot/src/engine/analytics/dataGenerator.js`, the simulation manager and the
orchestrating `AnalyticsService`), together with proofs about its
specification.

JavaScript numbers are modelled as follows: persisted counters and computed
integer targets (results of `Math.floor`) are `Int`; fractional quantities
(ratios, random draws from `Math.random()`, engagement rates, elapsed hours)
are `ℚ`; the transcendental sigmoid curve is modelled over `ℝ`.  Calls to
`Math.random()` are threaded explicitly as oracle parameters (a draw in
`[0, 1)`, or for the Fisher-Yates shuffle the already-scaled index
`Math.floor(Math.random() * (i + 1))`).  Database tables are lists inside an
explicit `Db` state; `async` methods that may throw are `Except String`.
-/

namespace Viewbot

/-- A row of the `posts` table: the persisted counters of one content item
(`shared/database/models/post.js`). -/
structure Post where
  id : Nat
  viewCount : Int
  likeCount : Int
  commentCount : Int
  shareCount : Int
deriving Repr, DecidableEq

/-- A row of the `users` table, restricted to the attributes the analytics
engine reads (`id`, `isBot`). -/
structure User where
  id : Nat
  isBot : Bool
deriving Repr, DecidableEq

/-- A synthetic view record as built by `DataGenerator.generateSyntheticViews`
(`dataGenerator.js`, lines 29-36); `createdAt` is omitted (wall-clock only). -/
structure ViewRecord where
  postId : Nat
  userId : Nat
  ipAddress : String
  userAgent : String
  duration : Int
deriving Repr, DecidableEq

/-- A synthetic like record as built by `DataGenerator.generateSyntheticLikes`
(`dataGenerator.js`, lines 65-69). -/
structure LikeRecord where
  userId : Nat
  postId : Nat
deriving Repr, DecidableEq

/-- An analytics snapshot row (`DataGenerator.createAnalyticsEntry`).  The
`toFixed` string formatting of the metadata is modelled by keeping the exact
rational values. -/
structure AnalyticsEntry where
  postId : Nat
  viewCount : Int
  likeCount : Int
  commentCount : Int
  shareCount : Int
  engagementRate : ℚ
  metadataGrowthCurve : String
  metadataElapsedHours : ℚ
  metadataProgress : ℚ
deriving Repr, DecidableEq

/-- The database state visible to the analytics engine. -/
structure Db where
  posts : List Post
  users : List User
  likes : List LikeRecord
  views : List ViewRecord
  analyticsEntries : List AnalyticsEntry
deriving Repr, DecidableEq

/-- `db.Post.findByPk(id)` over the embedded posts table. -/
def findPost (posts : List Post) (id : Nat) : Option Post :=
  posts.find? (fun p => p.id == id)

/-- `lockedPost.update({viewCount, likeCount})`: replace the counters of the
post with the given id. -/
def setPostCounts (posts : List Post) (id : Nat) (v l : Int) : List Post :=
  posts.map (fun p => if p.id == id then
    { p with viewCount := v, likeCount := l } else p)

/-- `calculateEngagementMetrics(views, likes, comments, shares)`
(`growthAlgorithm.js`, lines 79-99): weighted engagement as a percentage of
views, capped at 100, and 0 when `views` is 0. -/
def calculateEngagementMetrics (views likes comments shares : Int) : ℚ :=
  if views = 0 then 0
  else
    let totalEngagement : Int := likes * 1 + comments * 2 + shares * 3
    min ((totalEngagement : ℚ) / (views : ℚ) * 100) 100

/-- Result record of `MetricsCalculator.adjustMetrics`. -/
structure AdjustedMetrics where
  finalViews : Int
  finalLikes : Int
  hasChanges : Bool
deriving Repr, DecidableEq

/-- `MetricsCalculator.adjustMetrics(targetViews, targetLikes, currentViews,
currentLikes)` (`metricsCalculator.js`, lines 101-114): clamp the jittered
targets so counts never decrease and likes never exceed views. -/
def adjustMetrics (targetViews targetLikes currentViews currentLikes : Int) :
    AdjustedMetrics :=
  let finalViews := max targetViews currentViews
  let finalLikes0 := max targetLikes currentLikes
  let finalLikes := min finalLikes0 finalViews
  { finalViews := finalViews
    finalLikes := finalLikes
    hasChanges := decide (currentViews < finalViews) ||
      decide (currentLikes < finalLikes) }

/-- `targetLikes = Math.min(Math.floor(targetViews * likeRatio), maxLikes,
targetViews)` (`metricsCalculator.js`, lines 51-52). -/
def computeTargetLikes (targetViews : Int) (likeRatio : ℚ) (maxLikes : Int) :
    Int :=
  min (min (Rat.floor ((targetViews : ℚ) * likeRatio)) maxLikes) targetViews

/-- The random realism jitter of `metricsCalculator.js` lines 54-61 /
`growthAlgorithm.js` lines 379-384: `variance = rand * range - range / 2` and
`target = Math.floor(target * (1 + variance))`, applied to the absolute target
values.  In `growthAlgorithm.js` the ranges are the literals `0.1` (views) and
`0.15` (likes); `rv` and `rl` are the two `Math.random()` draws. -/
def applyRealismVariance (viewVarianceRange likeVarianceRange rv rl : ℚ)
    (targetViews targetLikes : Int) : Int × Int :=
  let viewVariance := rv * viewVarianceRange - viewVarianceRange / 2
  let likeVariance := rl * likeVarianceRange - likeVarianceRange / 2
  (Rat.floor ((targetViews : ℚ) * (1 + viewVariance)),
   Rat.floor ((targetLikes : ℚ) * (1 + likeVariance)))

/-- The tail of `MetricsCalculator.calculateTargetMetrics`
(`metricsCalculator.js`, lines 50-66): from the raw curve target for views
(the already floored result of the selected growth-curve branch), derive the
like target and apply the realism jitter to both absolute targets. -/
def calculateTargetMetrics (viewVarianceRange likeVarianceRange rv rl : ℚ)
    (targetViewsRaw : Int) (likeRatio : ℚ) (maxLikes : Int) : Int × Int :=
  let targetLikes := computeTargetLikes targetViewsRaw likeRatio maxLikes
  applyRealismVariance viewVarianceRange likeVarianceRange rv rl
    targetViewsRaw targetLikes

/-- One step of the Fisher-Yates loop body
(`[shuffled[i], shuffled[j]] = [shuffled[j], shuffled[i]]`): exchange the
elements at positions `i` and `j` (identity when out of bounds; the source
always calls it in bounds). -/
def listSwap (l : List α) (i j : Nat) : List α :=
  if h : i < l.length ∧ j < l.length then
    (l.set i (l.get ⟨j, h.2⟩)).set j (l.get ⟨i, h.1⟩)
  else l

/-- The descending loop of `shuffleArray` (`dataGenerator.js`, lines 133-140):
process indices `i, i-1, ..., 1`, swapping position `i` with the random
position `rand i` (the source draws `Math.floor(Math.random()*(i+1))`). -/
def fisherYatesAux (rand : Nat → Nat) : Nat → List α → List α
  | 0, l => l
  | i + 1, l => fisherYatesAux rand i (listSwap l (i + 1) (rand (i + 1)))

/-- `shuffleArray(array)`: Fisher-Yates over a copy of the input. -/
def shuffleArray (rand : Nat → Nat) (l : List α) : List α :=
  fisherYatesAux rand (l.length - 1) l

/-- The fixed client-signature pool of `generateRandomUserAgent`
(`dataGenerator.js`, lines 116-123). -/
def userAgents : List String :=
  ["Mozilla/5.0 (Windows NT 10.0; Win64; x64) AppleWebKit/537.36",
   "Mozilla/5.0 (Macintosh; Intel Mac OS X 10_15_7) AppleWebKit/537.36",
   "Mozilla/5.0 (X11; Linux x86_64) AppleWebKit/537.36",
   "Mozilla/5.0 (iPhone; CPU iPhone OS 14_7_1 like Mac OS X) AppleWebKit/605.1.15",
   "Mozilla/5.0 (iPad; CPU OS 14_7_1 like Mac OS X) AppleWebKit/605.1.15",
   "Mozilla/5.0 (Android 11; Mobile; rv:89.0) Gecko/89.0 Firefox/89.0"]

/-- `generateRandomUserAgent()`: pick `userAgents[Math.floor(r * length)]`
for a draw `r` of `Math.random()`. -/
def generateRandomUserAgent (r : ℚ) : String :=
  userAgents.getD (Rat.floor (r * (userAgents.length : ℚ))).toNat ""

/-- `generateRandomIP()`: four octets `Math.floor(r * 256)` joined by dots;
`r` is the stream of the four `Math.random()` draws. -/
def generateRandomIP (r : Fin 4 → ℚ) : String :=
  String.intercalate "."
    (((List.finRange 4).map (fun k => toString (Rat.floor (r k * 256)).toNat)))

/-- The analytics section of the application configuration as read by the
engine (`bot/src/config/config.js` supplies `defaultLikeRatio`,
`defaultGrowthDurationHours`; the remaining keys are the ones the refactored
modules dereference from `appConfig.analytics`). -/
structure AnalyticsConfig where
  defaultLikeRatio : ℚ
  defaultGrowthDurationHours : ℚ
  defaultGrowthCurve : String
  viewVarianceRange : ℚ
  likeVarianceRange : ℚ
  maxBotUsersPerBatch : Nat
  minViewDuration : Int
  maxViewDuration : Int
  bulkInsertBatchSize : Nat
deriving Repr, DecidableEq

/-- The `Math.random()` draws consumed by one `generateSyntheticViews` call:
the shuffle indices, and per record the four IP octets, the user-agent draw
and the duration draw. -/
structure ViewGenRand where
  shuffle : Nat → Nat
  ipOctet : Nat → Fin 4 → ℚ
  ua : Nat → ℚ
  dur : Nat → ℚ

/-- Lines 12-21 of `dataGenerator.js`: the bot users, shuffled, then
`slice(0, Math.min(count, maxBotUsersPerBatch))`. -/
def selectedViewActors (cfg : AnalyticsConfig) (shuffleRand : Nat → Nat)
    (users : List User) (count : Nat) : List User :=
  let allBotUsers := users.filter (fun u => u.isBot)
  let shuffledUsers := shuffleArray shuffleRand allBotUsers
  shuffledUsers.take (min count cfg.maxBotUsersPerBatch)

/-- `DataGenerator.generateSyntheticViews(postId, count, transaction)`
(`dataGenerator.js`, lines 11-45; identical to `growthAlgorithm.js` lines
499-533 with the cap, duration range and batch size inlined as 50, 10-310 and
100): shuffle the bot users, keep the first `min(count, cap)`, and build
`count` records cycling through the selected ids.  The batched
`bulkCreate` calls concatenate to the full record list, which is what the
caller appends to the views table. -/
def generateSyntheticViews (cfg : AnalyticsConfig) (rnd : ViewGenRand)
    (users : List User) (postId : Nat) (count : Nat) : List ViewRecord :=
  let botUsers := selectedViewActors cfg rnd.shuffle users count
  let userIds := botUsers.map (fun u => u.id)
  (List.range count).map (fun i =>
    { postId := postId
      userId := userIds.getD (i % userIds.length) 0
      ipAddress := generateRandomIP (rnd.ipOctet i)
      userAgent := generateRandomUserAgent (rnd.ua i)
      duration :=
        Rat.floor
          (rnd.dur i * ((cfg.maxViewDuration - cfg.minViewDuration : Int) : ℚ))
          + cfg.minViewDuration })

/-- Lines 52-59 of `dataGenerator.js`: the bot users whose id is not in the
exclusion set (the `Op.notIn` query filter). -/
def eligibleLikeActors (users : List User) (excluded : List Nat) :
    List User :=
  users.filter (fun u => u.isBot && !(excluded.contains u.id))

/-- `DataGenerator.generateSyntheticLikes(postId, count,
existingLikedUserIds, transaction)` (`dataGenerator.js`, lines 50-76): filter
the bot users down to those not in the exclusion set, shuffle, keep the first
`count`, and build one like record per selected actor. -/
def generateSyntheticLikes (rnd : Nat → Nat) (users : List User)
    (postId : Nat) (count : Nat) (existingLikedUserIds : List Nat) :
    List LikeRecord :=
  let allAvailableBotUsers := eligibleLikeActors users existingLikedUserIds
  let shuffledUsers := shuffleArray rnd allAvailableBotUsers
  let availableBotUsers := shuffledUsers.take count
  availableBotUsers.map (fun u => { userId := u.id, postId := postId })

/-- An active simulation entry as stored by
`SimulationManager.startSimulation` (`simulationManager.js`, lines 30-40).
`startTime` is the epoch instant in milliseconds, as a rational. -/
structure Simulation where
  targetMediaId : Nat
  maxViews : Int
  maxLikes : Int
  likeRatio : ℚ
  growthDurationHours : ℚ
  growthCurve : String
  startTime : ℚ
  initialViews : Int
  initialLikes : Int
deriving Repr, DecidableEq

/-- The in-memory `activeSimulations` map of the `SimulationManager`,
modelled as an insertion-ordered association list (JavaScript `Map`
iteration order). -/
structure Registry where
  sims : List (Nat × Simulation)
deriving Repr, DecidableEq

/-- `SimulationManager.getSimulation(mediaId)`. -/
def Registry.getSim (reg : Registry) (id : Nat) : Option Simulation :=
  (reg.sims.find? (fun p => p.1 == id)).map (fun p => p.2)

/-- `Map.prototype.set` semantics: replace in place when the key exists,
append otherwise. -/
def Registry.setSim (reg : Registry) (id : Nat) (sim : Simulation) :
    Registry :=
  if (reg.sims.find? (fun p => p.1 == id)).isSome then
    { sims := reg.sims.map (fun p => if p.1 == id then (id, sim) else p) }
  else
    { sims := reg.sims ++ [(id, sim)] }

/-- `SimulationManager.stopSimulation(mediaId)`: remove the entry. -/
def Registry.removeSim (reg : Registry) (id : Nat) : Registry :=
  { sims := reg.sims.filter (fun p => !(p.1 == id)) }

/-- `SimulationManager.getActiveSimulationIds()`. -/
def Registry.activeIds (reg : Registry) : List Nat :=
  reg.sims.map (fun p => p.1)

/-- `MetricsCalculator.calculateElapsedTime(startTime)` with the current
instant `now` (milliseconds) made explicit:
`(now - startTime) / (1000*60*60)` hours. -/
def calculateElapsedTime (startTime now : ℚ) : ℚ :=
  (now - startTime) / (1000 * 60 * 60)

/-- `SimulationManager.isSimulationComplete(simulation)`:
`elapsedHours >= growthDurationHours`. -/
def isSimulationComplete (now : ℚ) (sim : Simulation) : Bool :=
  decide (sim.growthDurationHours ≤ calculateElapsedTime sim.startTime now)

/-- `MetricsCalculator.calculateProgress` without the `toFixed(1)` string
formatting: the exact percentage. -/
def calculateProgress (elapsedHours growthDurationHours : ℚ) : ℚ :=
  elapsedHours / growthDurationHours * 100

/-- The per-target result object of `AnalyticsService.updateSingleSimulation`
/ the entries of the `updateSimulations` result list (`analyticsService.js`).
`Option` fields model object keys that are absent on some code paths. -/
structure UpdateResult where
  mediaId : Nat
  success : Bool
  isComplete : Bool
  currentViews : Option Int
  currentLikes : Option Int
  progress : Option ℚ
  changesViews : Option Int
  changesLikes : Option Int
  message : Option String
  errMsg : Option String
deriving Repr, DecidableEq

/-- The `Math.random()` draws consumed by one `applyMetricsUpdate` call: one
stream for the synthetic-view generation and one shuffle stream for the
synthetic-like generation. -/
structure EngineRand where
  viewGen : ViewGenRand
  likeShuffle : Nat → Nat

/-- `AnalyticsService.applyMetricsUpdate(post, finalViews, finalLikes,
simulation, elapsedHours)` (`analyticsService.js` refactored version, lines
176-255).  Inside the serializable transaction the post is re-fetched under
lock, the clamping is recomputed against the locked row, the counters are
written, an analytics entry is appended, and synthetic view/like records are
generated for the positive deltas.  `txOk` injects an external transaction
failure (serialization conflict, I/O error): on failure everything rolls
back, modelled by returning `.error` and discarding the built state. -/
def applyMetricsUpdate (cfg : AnalyticsConfig) (rnd : EngineRand)
    (txOk : Bool) (db : Db) (postId : Nat) (finalViews finalLikes : Int)
    (sim : Simulation) (elapsedHours : ℚ) : Except String Db :=
  match findPost db.posts postId with
  | none => .error "Post not found during locked update"
  | some lockedPost =>
    let adjustedViews := max finalViews lockedPost.viewCount
    let adjustedLikes := max finalLikes lockedPost.likeCount
    let finalLikesAdjusted := min adjustedLikes adjustedViews
    let newViews := adjustedViews - lockedPost.viewCount
    let newLikes := finalLikesAdjusted - lockedPost.likeCount
    let engagementRate := calculateEngagementMetrics adjustedViews
      finalLikesAdjusted lockedPost.commentCount lockedPost.shareCount
    let entry : AnalyticsEntry :=
      { postId := postId
        viewCount := adjustedViews
        likeCount := finalLikesAdjusted
        commentCount := lockedPost.commentCount
        shareCount := lockedPost.shareCount
        engagementRate := engagementRate
        metadataGrowthCurve := sim.growthCurve
        metadataElapsedHours := elapsedHours
        metadataProgress := calculateProgress elapsedHours
          sim.growthDurationHours }
    let db1 : Db :=
      { db with
        posts := setPostCounts db.posts postId adjustedViews
          finalLikesAdjusted
        analyticsEntries := db.analyticsEntries ++ [entry] }
    let db2 : Db :=
      if 0 < newViews then
        { db1 with views := db1.views ++
            (generateSyntheticViews cfg rnd.viewGen db.users postId
              newViews.toNat) }
      else db1
    let db3 : Db :=
      if 0 < newLikes then
        let likedUserIds :=
          (db.likes.filter (fun l => l.postId == postId)).map
            (fun l => l.userId)
        { db2 with likes := db2.likes ++
            (generateSyntheticLikes rnd.likeShuffle db.users postId
              newLikes.toNat likedUserIds) }
      else db2
    if txOk then .ok db3 else .error "Transaction failed"

/-- `const post = preloadedPost || await db.Post.findByPk(mediaId)`. -/
def resolvePost (preloadedPost : Option Post) (db : Db) (mediaId : Nat) :
    Option Post :=
  match preloadedPost with
  | some p => some p
  | none => findPost db.posts mediaId

/-- `AnalyticsService.updateSingleSimulation(mediaId, simulation,
preloadedPost)` (`analyticsService.js` refactored version, lines 110-171).
The growth-curve-and-jitter computation of
`MetricsCalculator.calculateTargetMetrics` is threaded as the `calcTargets`
collaborator (its sigmoid branch is transcendental and its jitter random; all
theorems below hold for every behaviour of it). -/
def updateSingleSimulation (cfg : AnalyticsConfig) (rnd : EngineRand)
    (calcTargets : Simulation → ℚ → Int × Int) (txOk : Bool) (now : ℚ)
    (db : Db) (mediaId : Nat) (sim : Simulation)
    (preloadedPost : Option Post) : Except String (UpdateResult × Db) :=
  if isSimulationComplete now sim then
    .ok ({ mediaId := mediaId
           success := true
           isComplete := true
           currentViews := none
           currentLikes := none
           progress := none
           changesViews := none
           changesLikes := none
           message := some "Simulation duration reached"
           errMsg := none }, db)
  else
    match resolvePost preloadedPost db mediaId with
    | none => .error "Post not found"
    | some post =>
      let elapsedHours := calculateElapsedTime sim.startTime now
      let t := calcTargets sim elapsedHours
      let am := adjustMetrics t.1 t.2 post.viewCount post.likeCount
      let afterWrite : Except String Db :=
        if am.hasChanges then
          applyMetricsUpdate cfg rnd txOk db mediaId am.finalViews
            am.finalLikes sim elapsedHours
        else .ok db
      match afterWrite with
      | .error e => .error e
      | .ok db' =>
        .ok ({ mediaId := mediaId
               success := true
               isComplete := false
               currentViews := some am.finalViews
               currentLikes := some am.finalLikes
               progress := some (calculateProgress elapsedHours
                 sim.growthDurationHours)
               changesViews := some (if am.hasChanges then
                 am.finalViews - post.viewCount else 0)
               changesLikes := some (if am.hasChanges then
                 am.finalLikes - post.likeCount else 0)
               message := none
               errMsg := none }, db')

/-- The body of the `for (const mediaId of mediaIds)` loop of
`AnalyticsService.updateSimulations` (`analyticsService.js` refactored
version, lines 77-102) for one target: the `try`/`catch` converts any thrown
error into a failure entry for that target; a completed target is removed
from the registry.  `postsMap` is the batch-fetched posts map captured before
the loop. -/
def processOneTarget (cfg : AnalyticsConfig) (rnd : EngineRand)
    (calcTargets : Simulation → ℚ → Int × Int) (txOk : Bool) (now : ℚ)
    (postsMap : Nat → Option Post) (db : Db) (reg : Registry)
    (mediaId : Nat) : UpdateResult × Db × Registry :=
  let failure : String → UpdateResult × Db × Registry := fun e =>
    ({ mediaId := mediaId
       success := false
       isComplete := false
       currentViews := none
       currentLikes := none
       progress := none
       changesViews := none
       changesLikes := none
       message := none
       errMsg := some e }, db, reg)
  match reg.getSim mediaId with
  | none => failure "Cannot read startTime of undefined"
  | some sim =>
    match postsMap mediaId with
    | none => failure "Post not found"
    | some post =>
      match updateSingleSimulation cfg rnd calcTargets txOk now db mediaId
          sim (some post) with
      | .error e => failure e
      | .ok (res, db') =>
        (res, db', if res.isComplete then reg.removeSim mediaId else reg)

/-- The loop of `updateSimulations` over the captured id list, threading the
database and registry states and collecting one result entry per id. -/
def updateSimulationsGo (cfg : AnalyticsConfig) (rndOf : Nat → EngineRand)
    (calcTargets : Simulation → ℚ → Int × Int) (txOkOf : Nat → Bool)
    (now : ℚ) (postsMap : Nat → Option Post) :
    List Nat → Db → Registry → List UpdateResult × Db × Registry
  | [], db, reg => ([], db, reg)
  | mediaId :: rest, db, reg =>
    let step := processOneTarget cfg (rndOf mediaId) calcTargets
      (txOkOf mediaId) now postsMap db reg mediaId
    let tail := updateSimulationsGo cfg rndOf calcTargets txOkOf now postsMap
      rest step.2.1 step.2.2
    (step.1 :: tail.1, tail.2)

/-- `AnalyticsService.updateSimulations()` (`analyticsService.js` refactored
version, lines 58-105): capture the active ids, batch-fetch their posts from
the current database, then run the per-target loop.  Per-target randomness
and transaction-failure injection are indexed by media id. -/
def updateSimulations (cfg : AnalyticsConfig) (rndOf : Nat → EngineRand)
    (calcTargets : Simulation → ℚ → Int × Int) (txOkOf : Nat → Bool)
    (now : ℚ) (db : Db) (reg : Registry) :
    List UpdateResult × Db × Registry :=
  let mediaIds := reg.activeIds
  let postsMap : Nat → Option Post := fun id => findPost db.posts id
  updateSimulationsGo cfg rndOf calcTargets txOkOf now postsMap mediaIds db
    reg

/-- The caller-supplied configuration object of
`AnalyticsService.startViralSimulation`; `Option` fields model keys the
caller may omit (and, for `maxLikes`, the `maxLikes || ...` falsy fallback is
modelled separately below). -/
structure StartConfig where
  targetMediaId : Nat
  maxViews : Int
  maxLikes : Option Int
  likeRatio : Option ℚ
  growthDurationHours : Option ℚ
  growthCurve : Option String
deriving Repr, DecidableEq

/-- `SimulationManager.startSimulation(config)` (`simulationManager.js`,
lines 14-49): unconditionally build the simulation entry with
`startTime = now` and insert it into the registry, reporting success. -/
def startSimulation (now : ℚ) (reg : Registry) (sim : Simulation) :
    (Bool × Simulation) × Registry :=
  let sim' := { sim with startTime := now }
  ((true, sim'), reg.setSim sim.targetMediaId sim')

/-- `AnalyticsService.startViralSimulation(config)` (`analyticsService.js`
refactored version, lines 21-53): apply the config defaults, reject only a
missing target post, and hand over to the simulation manager.  The JS
`maxLikes || Math.floor(maxViews * defaultLikeRatio)` fallback fires when
`maxLikes` is absent or `0` (falsy). -/
def startViralSimulation (cfg : AnalyticsConfig) (now : ℚ) (db : Db)
    (reg : Registry) (config : StartConfig) :
    Except String ((Bool × Simulation) × Registry) :=
  let likeRatio := config.likeRatio.getD cfg.defaultLikeRatio
  let growthDurationHours :=
    config.growthDurationHours.getD cfg.defaultGrowthDurationHours
  let growthCurve := config.growthCurve.getD cfg.defaultGrowthCurve
  match findPost db.posts config.targetMediaId with
  | none => .error "Target media not found"
  | some targetPost =>
    let maxLikes :=
      match config.maxLikes with
      | some m =>
        if m = 0 then Rat.floor ((config.maxViews : ℚ) * cfg.defaultLikeRatio)
        else m
      | none => Rat.floor ((config.maxViews : ℚ) * cfg.defaultLikeRatio)
    .ok (startSimulation now reg
      { targetMediaId := config.targetMediaId
        maxViews := config.maxViews
        maxLikes := maxLikes
        likeRatio := likeRatio
        growthDurationHours := growthDurationHours
        growthCurve := growthCurve
        startTime := now
        initialViews := targetPost.viewCount
        initialLikes := targetPost.likeCount })

/-- `calculateSigmoidGrowth(currentTime, totalDuration, maxValue)`
(`growthAlgorithm.js`, lines 14-27): the S-curve
`maxValue / (1 + e^(-k*(t - totalDuration/2)))` with fixed steepness
`k = 0.15`, over the reals. -/
noncomputable def calculateSigmoidGrowth
    (currentTime totalDuration maxValue : ℝ) : ℝ :=
  let k : ℝ := 0.15
  let midpoint := totalDuration / 2
  let exponential := Real.exp (-k * (currentTime - midpoint))
  maxValue / (1 + exponential)

/-- A concrete configuration, randomness oracle, database and simulation used
by the closed witness statements below. -/
def demoCfg : AnalyticsConfig :=
  { defaultLikeRatio := 1/20, defaultGrowthDurationHours := 72,
    defaultGrowthCurve := "sigmoid", viewVarianceRange := 1/10,
    likeVarianceRange := 3/20, maxBotUsersPerBatch := 50,
    minViewDuration := 10, maxViewDuration := 310,
    bulkInsertBatchSize := 100 }

def demoRand : EngineRand :=
  { viewGen := { shuffle := fun _ => 0, ipOctet := fun _ _ => 1/2,
                 ua := fun _ => 1/2, dur := fun _ => 1/2 },
    likeShuffle := fun _ => 0 }

def demoPost : Post :=
  { id := 1, viewCount := 100, likeCount := 5, commentCount := 2,
    shareCount := 1 }

def demoDb : Db :=
  { posts := [demoPost], users := [{ id := 7, isBot := true }],
    likes := [], views := [], analyticsEntries := [] }

def demoSim : Simulation :=
  { targetMediaId := 1, maxViews := 1000, maxLikes := 50,
    likeRatio := 1/20, growthDurationHours := 72, growthCurve := "sigmoid",
    startTime := 0, initialViews := 100, initialLikes := 5 }

/-- Extract the success state of an `Except`-valued database operation,
falling back to a default on failure (used only to phrase closed witness
statements). -/
def okOr (e : Except String Db) (d : Db) : Db :=
  match e with
  | .ok x => x
  | .error _ => d

instance decEqExcept {ε α : Type} [DecidableEq ε] [DecidableEq α] :
    DecidableEq (Except ε α) := fun a b =>
  match a, b with
  | .ok x, .ok y =>
    if h : x = y then isTrue (by rw [h])
    else isFalse (fun hc => h (Except.ok.inj hc))
  | .ok _, .error _ => isFalse (fun hc => Except.noConfusion hc)
  | .error _, .ok _ => isFalse (fun hc => Except.noConfusion hc)
  | .error x, .error y =>
    if h : x = y then isTrue (by rw [h])
    else isFalse (fun hc => h (Except.error.inj hc))

/-- A post whose view counter is zero: an invalid initial value for the
exponential growth curve. -/
def zeroPost : Post :=
  { id := 1, viewCount := 0, likeCount := 0, commentCount := 0,
    shareCount := 0 }

def zeroDb : Db :=
  { posts := [zeroPost], users := [], likes := [], views := [],
    analyticsEntries := [] }

/-- A start request combining both invalid growth parameters of the claim:
the exponential curve with a target whose initial view count is 0, and a
duration of 0 hours. -/
def invalidStartConfig : StartConfig :=
  { targetMediaId := 1, maxViews := 1000, maxLikes := some 50,
    likeRatio := some (1/20), growthDurationHours := some 0,
    growthCurve := some "exponential" }

/-- A small user pool for the like-generation witness: two bot actors and a
non-bot actor. -/
def likePool : List User :=
  [{ id := 7, isBot := true }, { id := 8, isBot := true },
   { id := 9, isBot := false }]

theorem cons_get_set_perm (t : List α) (k : Nat) (hk : k < t.length)
    (a : α) : (t.get ⟨k, hk⟩ :: t.set k a).Perm (a :: t) := by
  induction t generalizing k with
  | nil => simp at hk
  | cons x s ih =>
    cases k with
    | zero => simpa using List.Perm.swap a x s
    | succ m =>
      have hm : m < s.length := by simpa using hk
      have h1 : (s.get ⟨m, hm⟩ :: x :: s.set m a).Perm
          (x :: s.get ⟨m, hm⟩ :: s.set m a) := List.Perm.swap x _ _
      have h2 : (x :: s.get ⟨m, hm⟩ :: s.set m a).Perm (x :: a :: s) :=
        (ih m hm).cons x
      have h3 : (x :: a :: s).Perm (a :: x :: s) := List.Perm.swap a x s
      simpa using (h1.trans h2).trans h3

theorem set_set_perm (l : List α) (i j : Nat) (hi : i < l.length)
    (hj : j < l.length) :
    ((l.set i (l.get ⟨j, hj⟩)).set j (l.get ⟨i, hi⟩)).Perm l := by
  induction l generalizing i j with
  | nil => simp at hi
  | cons a t ih =>
    cases i with
    | zero =>
      cases j with
      | zero => simp
      | succ m =>
        have hm : m < t.length := by simpa using hj
        simpa using cons_get_set_perm t m hm a
    | succ n =>
      have hn : n < t.length := by simpa using hi
      cases j with
      | zero =>
        simpa using cons_get_set_perm t n hn a
      | succ m =>
        have hm : m < t.length := by simpa using hj
        simpa using (ih n m hn hm).cons a

theorem listSwap_perm (l : List α) (i j : Nat) : (listSwap l i j).Perm l := by
  unfold listSwap
  split
  · next h => exact set_set_perm l i j h.1 h.2
  · exact List.Perm.refl l

theorem fisherYatesAux_perm (rand : Nat → Nat) (i : Nat) (l : List α) :
    (fisherYatesAux rand i l).Perm l := by
  induction i generalizing l with
  | zero => exact List.Perm.refl l
  | succ n ih =>
    exact (ih (listSwap l (n + 1) (rand (n + 1)))).trans
      (listSwap_perm l (n + 1) (rand (n + 1)))

theorem shuffleArray_perm (rand : Nat → Nat) (l : List α) :
    (shuffleArray rand l).Perm l :=
  fisherYatesAux_perm rand (l.length - 1) l


theorem one_add_exp_pos (x : ℝ) : 0 < 1 + Real.exp x := by
  have := Real.exp_pos x
  linarith

/-- C9: for every `T > 0`, `L ≥ 0` and every `t`, `calculateSigmoidGrowth`
equals the closed form `L / (1 + e^(-0.15*(t - T/2)))`; it equals `L/2` at
`t = T/2` and is monotonically non-decreasing in `t` for fixed `T`, `L`. -/
theorem calculateSigmoidGrowth_spec (T L : ℝ) (hT : 0 < T) (hL : 0 ≤ L) :
    (∀ t, calculateSigmoidGrowth t T L =
      L / (1 + Real.exp (-(0.15) * (t - T / 2)))) ∧
    calculateSigmoidGrowth (T / 2) T L = L / 2 ∧
    (∀ t₁ t₂, t₁ ≤ t₂ →
      calculateSigmoidGrowth t₁ T L ≤ calculateSigmoidGrowth t₂ T L) := by
  refine ⟨fun t => rfl, ?_, ?_⟩
  · show L / (1 + Real.exp (-(0.15) * (T / 2 - T / 2))) = L / 2
    rw [sub_self, mul_zero, Real.exp_zero]
    norm_num
  · intro t₁ t₂ h
    show L / (1 + Real.exp (-(0.15) * (t₁ - T / 2))) ≤
      L / (1 + Real.exp (-(0.15) * (t₂ - T / 2)))
    have hexp : Real.exp (-(0.15) * (t₂ - T / 2)) ≤
        Real.exp (-(0.15) * (t₁ - T / 2)) := by
      apply Real.exp_le_exp.mpr
      nlinarith
    have h₂ : 0 < 1 + Real.exp (-(0.15) * (t₂ - T / 2)) := one_add_exp_pos _
    have h₁ : 0 < 1 + Real.exp (-(0.15) * (t₁ - T / 2)) := one_add_exp_pos _
    exact div_le_div_of_nonneg_left hL h₂ (by linarith) |>.trans_eq rfl

/-- Witness for C9 at `T = 2`, `L = 1`, `t₁ = 0 ≤ t₂ = 1`. -/
theorem calculateSigmoidGrowth_spec_witness :
    calculateSigmoidGrowth ((2 : ℝ) / 2) 2 1 = 1 / 2 ∧
    calculateSigmoidGrowth (0 : ℝ) 2 1 ≤ calculateSigmoidGrowth 1 2 1 :=
  ⟨(calculateSigmoidGrowth_spec 2 1 (by norm_num) (by norm_num)).2.1,
   (calculateSigmoidGrowth_spec 2 1 (by norm_num) (by norm_num)).2.2 0 1
     (by norm_num)⟩

/-- C10: for every `T`, every `t` and every `L > 0`, the sigmoid output is
strictly positive and strictly below the maximum value `L`. -/
theorem calculateSigmoidGrowth_bounds (t T L : ℝ) (hL : 0 < L) :
    0 < calculateSigmoidGrowth t T L ∧ calculateSigmoidGrowth t T L < L := by
  have hd : 0 < 1 + Real.exp (-(0.15) * (t - T / 2)) := one_add_exp_pos _
  constructor
  · exact div_pos hL hd
  · show L / (1 + Real.exp (-(0.15) * (t - T / 2))) < L
    rw [div_lt_iff hd]
    have := Real.exp_pos (-(0.15) * (t - T / 2))
    nlinarith

/-- Witness for C10 at `t = 0`, `T = 72`, `L = 10000`. -/
theorem calculateSigmoidGrowth_bounds_witness :
    0 < calculateSigmoidGrowth 0 72 10000 ∧
    calculateSigmoidGrowth 0 72 10000 < 10000 :=
  calculateSigmoidGrowth_bounds 0 72 10000 (by norm_num)

theorem findPost_setPostCounts (posts : List Post) (id : Nat) (v l : Int)
    (p : Post) (h : findPost posts id = some p) :
    findPost (setPostCounts posts id v l) id =
      some { p with viewCount := v, likeCount := l } := by
  induction posts with
  | nil => simp [findPost] at h
  | cons q rest ih =>
    by_cases hq : q.id = id
    · simp [findPost, setPostCounts, List.find?_cons, hq] at h ⊢
      subst h
      exact ⟨hq.symm, rfl, rfl⟩
    · simp only [findPost, setPostCounts, List.map_cons] at h ⊢
      rw [List.find?_cons_of_neg _ (by simp [hq])] at h
      rw [List.find?_cons_of_neg _ (by simp [hq])]
      exact ih h

theorem applyMetricsUpdate_ok_posts (cfg : AnalyticsConfig)
    (rnd : EngineRand) (txOk : Bool) (db : Db) (postId : Nat)
    (fv fl : Int) (sim : Simulation) (eh : ℚ) (lp : Post)
    (hfind : findPost db.posts postId = some lp) (db' : Db)
    (hok : applyMetricsUpdate cfg rnd txOk db postId fv fl sim eh =
      .ok db') :
    db'.posts = setPostCounts db.posts postId (max fv lp.viewCount)
      (min (max fl lp.likeCount) (max fv lp.viewCount)) := by
  unfold applyMetricsUpdate at hok
  rw [hfind] at hok
  cases txOk with
  | false => simp at hok
  | true =>
    simp only [if_true] at hok
    rw [Except.ok.injEq] at hok
    rw [← hok]
    split
    · split
      · rfl
      · rfl
    · split
      · rfl
      · rfl

/-- C1: every committed update pass writes counters that are at least the
counters read under the lock (both view and like count are non-decreasing),
and after the write the like count is at most the view count. -/
theorem applyMetricsUpdate_monotone (cfg : AnalyticsConfig)
    (rnd : EngineRand) (txOk : Bool) (db : Db) (postId : Nat)
    (fv fl : Int) (sim : Simulation) (eh : ℚ) (lp : Post)
    (hfind : findPost db.posts postId = some lp)
    (hinv : lp.likeCount ≤ lp.viewCount) (db' : Db)
    (hok : applyMetricsUpdate cfg rnd txOk db postId fv fl sim eh =
      .ok db') :
    ∃ p', findPost db'.posts postId = some p' ∧
      lp.viewCount ≤ p'.viewCount ∧ lp.likeCount ≤ p'.likeCount ∧
      p'.likeCount ≤ p'.viewCount := by
  have hposts := applyMetricsUpdate_ok_posts cfg rnd txOk db postId fv fl
    sim eh lp hfind db' hok
  refine ⟨({ lp with viewCount := max fv lp.viewCount, likeCount := min (max fl lp.likeCount) (max fv lp.viewCount) } : Post), ?_, ?_, ?_, ?_⟩
  · rw [hposts]
    exact findPost_setPostCounts db.posts postId _ _ lp hfind
  · exact le_max_right fv lp.viewCount
  · exact le_min (le_max_right fl lp.likeCount)
      (hinv.trans (le_max_right fv lp.viewCount))
  · exact min_le_right _ _

/-- Witness for C1: a concrete committed pass over a one-post database. -/
theorem applyMetricsUpdate_monotone_witness :
    ∃ p', findPost
        (okOr (applyMetricsUpdate demoCfg demoRand true demoDb 1 103 6
          demoSim 12) demoDb).posts 1 = some p' ∧
      demoPost.viewCount ≤ p'.viewCount ∧
      demoPost.likeCount ≤ p'.likeCount ∧
      p'.likeCount ≤ p'.viewCount :=
  applyMetricsUpdate_monotone demoCfg demoRand true demoDb 1 103 6 demoSim
    12 demoPost (by decide) (by decide) _ (by with_unfolding_all decide)

theorem applyMetricsUpdate_ok_of_found (cfg : AnalyticsConfig)
    (rnd : EngineRand) (db : Db) (postId : Nat) (fv fl : Int)
    (sim : Simulation) (eh : ℚ) (lp : Post)
    (hfind : findPost db.posts postId = some lp) :
    ∃ db', applyMetricsUpdate cfg rnd true db postId fv fl sim eh =
        .ok db' ∧
      db'.posts = setPostCounts db.posts postId (max fv lp.viewCount)
        (min (max fl lp.likeCount) (max fv lp.viewCount)) := by
  unfold applyMetricsUpdate
  rw [hfind]
  refine ⟨_, rfl, ?_⟩
  split
  · split
    · rfl
    · rfl
  · split
    · rfl
    · rfl

/-- C6: when the computed final counters equal the current counters the
update step is a no-op: it reports success with zero deltas and returns the
database unchanged (no counter write, no synthetic records, no snapshot). -/
theorem updateSingleSimulation_noop (cfg : AnalyticsConfig)
    (rnd : EngineRand) (calcTargets : Simulation → ℚ → Int × Int)
    (txOk : Bool) (now : ℚ) (db : Db) (mediaId : Nat) (sim : Simulation)
    (post : Post) (tv tl : Int)
    (hnc : isSimulationComplete now sim = false)
    (ht : calcTargets sim (calculateElapsedTime sim.startTime now) = (tv, tl))
    (heqv : (adjustMetrics tv tl post.viewCount post.likeCount).finalViews =
      post.viewCount)
    (heql : (adjustMetrics tv tl post.viewCount post.likeCount).finalLikes =
      post.likeCount) :
    updateSingleSimulation cfg rnd calcTargets txOk now db mediaId sim
        (some post) =
      .ok ({ mediaId := mediaId
             success := true
             isComplete := false
             currentViews := some post.viewCount
             currentLikes := some post.likeCount
             progress := some (calculateProgress
               (calculateElapsedTime sim.startTime now)
               sim.growthDurationHours)
             changesViews := some 0
             changesLikes := some 0
             message := none
             errMsg := none }, db) := by
  have hch : (adjustMetrics tv tl post.viewCount post.likeCount).hasChanges =
      false := by
    have hdef : (adjustMetrics tv tl post.viewCount post.likeCount).hasChanges
        = (decide (post.viewCount <
            (adjustMetrics tv tl post.viewCount post.likeCount).finalViews) ||
           decide (post.likeCount <
            (adjustMetrics tv tl post.viewCount post.likeCount).finalLikes)) :=
      rfl
    rw [hdef, heqv, heql]
    simp
  simp [updateSingleSimulation, hnc, resolvePost, ht, hch, heqv, heql]

/-- Witness for C6: a concrete no-op pass. -/
theorem updateSingleSimulation_noop_witness :
    updateSingleSimulation demoCfg demoRand (fun _ _ => (100, 5)) true 12
        demoDb 1 demoSim (some demoPost) =
      .ok ({ mediaId := 1
             success := true
             isComplete := false
             currentViews := some demoPost.viewCount
             currentLikes := some demoPost.likeCount
             progress := some (calculateProgress
               (calculateElapsedTime demoSim.startTime 12)
               demoSim.growthDurationHours)
             changesViews := some 0
             changesLikes := some 0
             message := none
             errMsg := none }, demoDb) :=
  updateSingleSimulation_noop demoCfg demoRand (fun _ _ => (100, 5)) true 12
    demoDb 1 demoSim demoPost 100 5 (by with_unfolding_all decide) rfl
    (by decide) (by decide)

/-- C5: for a non-complete update whose counters change and whose transaction
commits, `updateSingleSimulation` returns a success result carrying the final
written view and like counts (the database post holds exactly the returned
counters), `isComplete = false`, and the applied deltas in
`changes.views` / `changes.likes`. -/
theorem updateSingleSimulation_commit (cfg : AnalyticsConfig)
    (rnd : EngineRand) (calcTargets : Simulation → ℚ → Int × Int) (now : ℚ)
    (db : Db) (mediaId : Nat) (sim : Simulation) (post : Post) (tv tl : Int)
    (hnc : isSimulationComplete now sim = false)
    (hfind : findPost db.posts mediaId = some post)
    (hinv : post.likeCount ≤ post.viewCount)
    (ht : calcTargets sim (calculateElapsedTime sim.startTime now) = (tv, tl))
    (hch : (adjustMetrics tv tl post.viewCount post.likeCount).hasChanges =
      true) :
    ∃ db', updateSingleSimulation cfg rnd calcTargets true now db mediaId sim
        (some post) =
      .ok ({ mediaId := mediaId
             success := true
             isComplete := false
             currentViews := some
               (adjustMetrics tv tl post.viewCount post.likeCount).finalViews
             currentLikes := some
               (adjustMetrics tv tl post.viewCount post.likeCount).finalLikes
             progress := some (calculateProgress
               (calculateElapsedTime sim.startTime now)
               sim.growthDurationHours)
             changesViews := some
               ((adjustMetrics tv tl post.viewCount post.likeCount).finalViews
                 - post.viewCount)
             changesLikes := some
               ((adjustMetrics tv tl post.viewCount post.likeCount).finalLikes
                 - post.likeCount)
             message := none
             errMsg := none }, db') ∧
      findPost db'.posts mediaId = some { post with
        viewCount :=
          (adjustMetrics tv tl post.viewCount post.likeCount).finalViews,
        likeCount :=
          (adjustMetrics tv tl post.viewCount post.likeCount).finalLikes } := by
  set am := adjustMetrics tv tl post.viewCount post.likeCount with ham
  have hfv : post.viewCount ≤ am.finalViews := le_max_right tv post.viewCount
  have hfl : post.likeCount ≤ am.finalLikes :=
    le_min (le_max_right tl post.likeCount)
      (hinv.trans (le_max_right tv post.viewCount))
  have hlv : am.finalLikes ≤ am.finalViews := min_le_right _ _
  obtain ⟨db', hok, hposts⟩ := applyMetricsUpdate_ok_of_found cfg rnd db
    mediaId am.finalViews am.finalLikes sim
    (calculateElapsedTime sim.startTime now) post hfind
  have hmaxv : max am.finalViews post.viewCount = am.finalViews :=
    max_eq_left hfv
  have hmaxl : max am.finalLikes post.likeCount = am.finalLikes :=
    max_eq_left hfl
  have hminl : min am.finalLikes am.finalViews = am.finalLikes :=
    min_eq_left hlv
  refine ⟨db', ?_, ?_⟩
  · simp only [updateSingleSimulation, hnc, resolvePost, ht, hch,
      Bool.false_eq_true, if_false, if_true, ← ham, hok]
  · rw [hposts, hmaxv, hmaxl, hminl]
    exact findPost_setPostCounts db.posts mediaId _ _ post hfind

/-- Witness for C5: a concrete committed update over `demoDb`. -/
theorem updateSingleSimulation_commit_witness :
    ∃ db', updateSingleSimulation demoCfg demoRand (fun _ _ => (103, 6)) true
        12 demoDb 1 demoSim (some demoPost) =
      .ok ({ mediaId := 1
             success := true
             isComplete := false
             currentViews := some
               (adjustMetrics 103 6 demoPost.viewCount
                 demoPost.likeCount).finalViews
             currentLikes := some
               (adjustMetrics 103 6 demoPost.viewCount
                 demoPost.likeCount).finalLikes
             progress := some (calculateProgress
               (calculateElapsedTime demoSim.startTime 12)
               demoSim.growthDurationHours)
             changesViews := some
               ((adjustMetrics 103 6 demoPost.viewCount
                 demoPost.likeCount).finalViews - demoPost.viewCount)
             changesLikes := some
               ((adjustMetrics 103 6 demoPost.viewCount
                 demoPost.likeCount).finalLikes - demoPost.likeCount)
             message := none
             errMsg := none }, db') ∧
      findPost db'.posts 1 = some { demoPost with
        viewCount := (adjustMetrics 103 6 demoPost.viewCount
          demoPost.likeCount).finalViews,
        likeCount := (adjustMetrics 103 6 demoPost.viewCount
          demoPost.likeCount).finalLikes } :=
  updateSingleSimulation_commit demoCfg demoRand (fun _ _ => (103, 6)) 12
    demoDb 1 demoSim demoPost 103 6 (by with_unfolding_all decide)
    (by decide) (by decide) rfl (by decide)

theorem updateSingleSimulation_ok_fields (cfg : AnalyticsConfig)
    (rnd : EngineRand) (calcTargets : Simulation → ℚ → Int × Int)
    (txOk : Bool) (now : ℚ) (db : Db) (mediaId : Nat) (sim : Simulation)
    (preloadedPost : Option Post) (res : UpdateResult) (db' : Db)
    (h : updateSingleSimulation cfg rnd calcTargets txOk now db mediaId sim
      preloadedPost = .ok (res, db')) :
    res.mediaId = mediaId ∧ res.success = true := by
  unfold updateSingleSimulation at h
  split at h
  · rw [Except.ok.injEq, Prod.mk.injEq] at h
    rw [← h.1]
    exact ⟨rfl, rfl⟩
  · split at h
    · exact absurd h (by simp)
    · simp only [] at h
      split at h
      · exact absurd h (by simp)
      · rw [Except.ok.injEq, Prod.mk.injEq] at h
        rw [← h.1]
        exact ⟨rfl, rfl⟩

theorem processOneTarget_mediaId (cfg : AnalyticsConfig) (rnd : EngineRand)
    (calcTargets : Simulation → ℚ → Int × Int) (txOk : Bool) (now : ℚ)
    (postsMap : Nat → Option Post) (db : Db) (reg : Registry)
    (mediaId : Nat) :
    (processOneTarget cfg rnd calcTargets txOk now postsMap db reg
      mediaId).1.mediaId = mediaId := by
  unfold processOneTarget
  split
  · rfl
  · split
    · rfl
    · split
      · rfl
      · next r d hres =>
        exact (updateSingleSimulation_ok_fields cfg rnd calcTargets txOk now
          db mediaId _ _ r d hres).1

theorem processOneTarget_failure_recorded (cfg : AnalyticsConfig)
    (rnd : EngineRand) (calcTargets : Simulation → ℚ → Int × Int)
    (txOk : Bool) (now : ℚ) (postsMap : Nat → Option Post) (db : Db)
    (reg : Registry) (mediaId : Nat)
    (h : (processOneTarget cfg rnd calcTargets txOk now postsMap db reg
      mediaId).1.success = false) :
    (processOneTarget cfg rnd calcTargets txOk now postsMap db reg
      mediaId).1.errMsg.isSome := by
  unfold processOneTarget at h ⊢
  split at h
  · simp
  · split at h
    · simp
    · split at h
      · simp
      · next r d hres =>
        exact absurd h (by
          rw [(updateSingleSimulation_ok_fields cfg rnd calcTargets txOk now
            db mediaId _ _ r d hres).2]
          simp)

theorem updateSimulationsGo_shape (cfg : AnalyticsConfig)
    (rndOf : Nat → EngineRand) (calcTargets : Simulation → ℚ → Int × Int)
    (txOkOf : Nat → Bool) (now : ℚ) (postsMap : Nat → Option Post)
    (ids : List Nat) (db : Db) (reg : Registry) :
    ((updateSimulationsGo cfg rndOf calcTargets txOkOf now postsMap ids db
        reg).1.map (fun r => r.mediaId)) = ids ∧
    ∀ r ∈ (updateSimulationsGo cfg rndOf calcTargets txOkOf now postsMap ids
      db reg).1, r.success = false → r.errMsg.isSome := by
  induction ids generalizing db reg with
  | nil => exact ⟨rfl, by intro r hr; simp [updateSimulationsGo] at hr⟩
  | cons id rest ih =>
    unfold updateSimulationsGo
    constructor
    · simp only [List.map_cons, processOneTarget_mediaId]
      rw [(ih _ _).1]
    · intro r hr hfail
      rw [List.mem_cons] at hr
      cases hr with
      | inl h =>
        subst h
        exact processOneTarget_failure_recorded cfg (rndOf id) calcTargets
          (txOkOf id) now postsMap db reg id hfail
      | inr h => exact (ih _ _).2 r h hfail

/-- C3: the batch pass `updateSimulations` is a total function returning one
result entry per target that was active when the pass began (in registry
order), and a target that fails is recorded as a failure entry carrying an
error message, without stopping the remaining targets. -/
theorem updateSimulations_shape (cfg : AnalyticsConfig)
    (rndOf : Nat → EngineRand) (calcTargets : Simulation → ℚ → Int × Int)
    (txOkOf : Nat → Bool) (now : ℚ) (db : Db) (reg : Registry) :
    ((updateSimulations cfg rndOf calcTargets txOkOf now db reg).1.map
      (fun r => r.mediaId)) = reg.activeIds ∧
    ∀ r ∈ (updateSimulations cfg rndOf calcTargets txOkOf now db reg).1,
      r.success = false → r.errMsg.isSome :=
  updateSimulationsGo_shape cfg rndOf calcTargets txOkOf now
    (fun id => findPost db.posts id) reg.activeIds db reg

/-- Witness for C3: a two-target registry in which one target's post is
missing (failure entry) and the other commits; the pass still yields one
entry per active target. -/
theorem updateSimulations_shape_witness :
    ((updateSimulations demoCfg (fun _ => demoRand) (fun _ _ => (103, 6))
        (fun _ => true) 12 demoDb
        { sims := [(1, demoSim), (2, { demoSim with targetMediaId := 2 })] }).1.map
      (fun r => r.mediaId)) =
      (Registry.activeIds
        { sims := [(1, demoSim), (2, { demoSim with targetMediaId := 2 })] }) ∧
    ∀ r ∈ (updateSimulations demoCfg (fun _ => demoRand)
        (fun _ _ => (103, 6)) (fun _ => true) 12 demoDb
        { sims := [(1, demoSim), (2, { demoSim with targetMediaId := 2 })] }).1,
      r.success = false → r.errMsg.isSome :=
  updateSimulations_shape demoCfg (fun _ => demoRand) (fun _ _ => (103, 6))
    (fun _ => true) 12 demoDb
    { sims := [(1, demoSim), (2, { demoSim with targetMediaId := 2 })] }

theorem rat_floor_eq (q : ℚ) : q.floor = ⌊q⌋ :=
  (Rat.floor_def' q).trans Rat.floor_def.symm

/-- C2 counterexample: the jitter does NOT always change the target view
count by at most ±5% of the target — at `targetViews = 1` with the random
draw `0` (variance exactly `-5%`), the floored result is `0`, a change of
one whole unit (100%), exceeding `5/100 * 1`. -/
theorem applyRealismVariance_five_percent_cex :
    ¬ (|(((applyRealismVariance (1/10) (3/20) 0 0 1 1).1 : ℚ)) - (1 : ℚ)| ≤
      5/100 * 1) := by
  with_unfolding_all decide

/-- C2 (amended): the jitter multiplies the target view count by a factor
`1 + v` with `v ∈ [-5%, 5%)` and the target like count by a factor `1 + w`
with `w ∈ [-7.5%, 7.5%)`, then floors; hence each jittered target stays
within the ±5% / ±7.5% band up to one unit of rounding.  The jitter is
applied to the absolute target values, and the subsequent `adjustMetrics`
clamping keeps the result at or above the previously observed counters. -/
theorem applyRealismVariance_spec (rv rl : ℚ) (tv tl cv cl : Int)
    (hrv0 : 0 ≤ rv) (hrv1 : rv < 1) (hrl0 : 0 ≤ rl) (hrl1 : rl < 1)
    (htv : 0 ≤ tv) (htl : 0 ≤ tl) (hinv : cl ≤ cv) :
    (-(1/20) ≤ rv * (1/10) - 1/20 ∧ rv * (1/10) - 1/20 < 1/20) ∧
    (-(3/40) ≤ rl * (3/20) - 3/40 ∧ rl * (3/20) - 3/40 < 3/40) ∧
    (applyRealismVariance (1/10) (3/20) rv rl tv tl).1 =
      Rat.floor ((tv : ℚ) * (1 + (rv * (1/10) - 1/20))) ∧
    (applyRealismVariance (1/10) (3/20) rv rl tv tl).2 =
      Rat.floor ((tl : ℚ) * (1 + (rl * (3/20) - 3/40))) ∧
    (tv : ℚ) * (19/20) - 1 <
      ((applyRealismVariance (1/10) (3/20) rv rl tv tl).1 : ℚ) ∧
    ((applyRealismVariance (1/10) (3/20) rv rl tv tl).1 : ℚ) ≤
      (tv : ℚ) * (21/20) ∧
    (tl : ℚ) * (37/40) - 1 <
      ((applyRealismVariance (1/10) (3/20) rv rl tv tl).2 : ℚ) ∧
    ((applyRealismVariance (1/10) (3/20) rv rl tv tl).2 : ℚ) ≤
      (tl : ℚ) * (43/40) ∧
    cv ≤ (adjustMetrics (applyRealismVariance (1/10) (3/20) rv rl tv tl).1
      (applyRealismVariance (1/10) (3/20) rv rl tv tl).2 cv cl).finalViews ∧
    cl ≤ (adjustMetrics (applyRealismVariance (1/10) (3/20) rv rl tv tl).1
      (applyRealismVariance (1/10) (3/20) rv rl tv tl).2 cv cl).finalLikes := by
  have htvq : (0 : ℚ) ≤ (tv : ℚ) := by exact_mod_cast htv
  have htlq : (0 : ℚ) ≤ (tl : ℚ) := by exact_mod_cast htl
  have hv0 : -(1/20) ≤ rv * (1/10) - 1/20 := by linarith
  have hv1 : rv * (1/10) - 1/20 < 1/20 := by linarith
  have hw0 : -(3/40) ≤ rl * (3/20) - 3/40 := by linarith
  have hw1 : rl * (3/20) - 3/40 < 3/40 := by linarith
  have hhalfv : (1/10 : ℚ) / 2 = 1/20 := by norm_num
  have hhalfl : (3/20 : ℚ) / 2 = 3/40 := by norm_num
  have hjv : (applyRealismVariance (1/10) (3/20) rv rl tv tl).1 =
      Rat.floor ((tv : ℚ) * (1 + (rv * (1/10) - 1/20))) := by
    show Rat.floor ((tv : ℚ) * (1 + (rv * (1/10) - (1/10 : ℚ)/2))) =
      Rat.floor ((tv : ℚ) * (1 + (rv * (1/10) - 1/20)))
    rw [hhalfv]
  have hjl : (applyRealismVariance (1/10) (3/20) rv rl tv tl).2 =
      Rat.floor ((tl : ℚ) * (1 + (rl * (3/20) - 3/40))) := by
    show Rat.floor ((tl : ℚ) * (1 + (rl * (3/20) - (3/20 : ℚ)/2))) =
      Rat.floor ((tl : ℚ) * (1 + (rl * (3/20) - 3/40)))
    rw [hhalfl]
  refine ⟨⟨hv0, hv1⟩, ⟨hw0, hw1⟩, hjv, hjl, ?_, ?_, ?_, ?_, ?_, ?_⟩
  · rw [hjv, rat_floor_eq]
    have hlow : (tv : ℚ) * (19/20) ≤ (tv : ℚ) * (1 + (rv * (1/10) - 1/20)) :=
      by nlinarith
    have := Int.sub_one_lt_floor ((tv : ℚ) * (1 + (rv * (1/10) - 1/20)))
    linarith
  · rw [hjv, rat_floor_eq]
    have hup : (tv : ℚ) * (1 + (rv * (1/10) - 1/20)) ≤ (tv : ℚ) * (21/20) :=
      by nlinarith
    have := Int.floor_le ((tv : ℚ) * (1 + (rv * (1/10) - 1/20)))
    linarith
  · rw [hjl, rat_floor_eq]
    have hlow : (tl : ℚ) * (37/40) ≤ (tl : ℚ) * (1 + (rl * (3/20) - 3/40)) :=
      by nlinarith
    have := Int.sub_one_lt_floor ((tl : ℚ) * (1 + (rl * (3/20) - 3/40)))
    linarith
  · rw [hjl, rat_floor_eq]
    have hup : (tl : ℚ) * (1 + (rl * (3/20) - 3/40)) ≤ (tl : ℚ) * (43/40) :=
      by nlinarith
    have := Int.floor_le ((tl : ℚ) * (1 + (rl * (3/20) - 3/40)))
    linarith
  · exact le_max_right _ _
  · exact le_min (le_max_right _ _) (hinv.trans (le_max_right _ _))

/-- Witness for C2 (amended) at `rv = rl = 1/2`, targets `100`/`10`, current
counters `50`/`3`. -/
theorem applyRealismVariance_spec_witness :
    (-(1/20) ≤ (1/2 : ℚ) * (1/10) - 1/20 ∧ (1/2 : ℚ) * (1/10) - 1/20 < 1/20) ∧
    (-(3/40) ≤ (1/2 : ℚ) * (3/20) - 3/40 ∧ (1/2 : ℚ) * (3/20) - 3/40 < 3/40) ∧
    (applyRealismVariance (1/10) (3/20) (1/2) (1/2) 100 10).1 =
      Rat.floor (((100 : Int) : ℚ) * (1 + ((1/2 : ℚ) * (1/10) - 1/20))) ∧
    (applyRealismVariance (1/10) (3/20) (1/2) (1/2) 100 10).2 =
      Rat.floor (((10 : Int) : ℚ) * (1 + ((1/2 : ℚ) * (3/20) - 3/40))) ∧
    ((100 : Int) : ℚ) * (19/20) - 1 <
      ((applyRealismVariance (1/10) (3/20) (1/2) (1/2) 100 10).1 : ℚ) ∧
    ((applyRealismVariance (1/10) (3/20) (1/2) (1/2) 100 10).1 : ℚ) ≤
      ((100 : Int) : ℚ) * (21/20) ∧
    ((10 : Int) : ℚ) * (37/40) - 1 <
      ((applyRealismVariance (1/10) (3/20) (1/2) (1/2) 100 10).2 : ℚ) ∧
    ((applyRealismVariance (1/10) (3/20) (1/2) (1/2) 100 10).2 : ℚ) ≤
      ((10 : Int) : ℚ) * (43/40) ∧
    (50 : Int) ≤ (adjustMetrics
      (applyRealismVariance (1/10) (3/20) (1/2) (1/2) 100 10).1
      (applyRealismVariance (1/10) (3/20) (1/2) (1/2) 100 10).2
      50 3).finalViews ∧
    (3 : Int) ≤ (adjustMetrics
      (applyRealismVariance (1/10) (3/20) (1/2) (1/2) 100 10).1
      (applyRealismVariance (1/10) (3/20) (1/2) (1/2) 100 10).2
      50 3).finalLikes :=
  applyRealismVariance_spec (1/2) (1/2) 100 10 50 3 (by norm_num)
    (by norm_num) (by norm_num) (by norm_num) (by norm_num) (by norm_num)
    (by norm_num)

/-- C4 counterexample: `startViralSimulation` accepts the invalid request
(exponential curve with initial views 0, duration 0) — it reports success and
registers the simulation, instead of signalling an
`InvalidGrowthParameters` error and leaving the registry empty. -/
theorem startViralSimulation_no_validation_cex :
    startViralSimulation demoCfg 0 zeroDb { sims := [] } invalidStartConfig =
      .ok ((true,
        { targetMediaId := 1, maxViews := 1000, maxLikes := 50,
          likeRatio := 1/20, growthDurationHours := 0,
          growthCurve := "exponential", startTime := 0, initialViews := 0,
          initialLikes := 0 }),
        { sims := [(1,
          { targetMediaId := 1, maxViews := 1000, maxLikes := 50,
            likeRatio := 1/20, growthDurationHours := 0,
            growthCurve := "exponential", startTime := 0, initialViews := 0,
            initialLikes := 0 })] }) := by
  with_unfolding_all decide

/-- C4 (amended): `startViralSimulation` validates only that the target post
exists; it performs no growth-parameter validation, so any config — including
an exponential curve whose target has initial views ≤ 0, or a duration ≤ 0 —
is accepted, reported successful, and registered. -/
theorem startViralSimulation_registers (cfg : AnalyticsConfig) (now : ℚ)
    (db : Db) (reg : Registry) (config : StartConfig) (p : Post)
    (hfind : findPost db.posts config.targetMediaId = some p) :
    ∃ sim, startViralSimulation cfg now db reg config =
        .ok ((true, sim), reg.setSim config.targetMediaId sim) ∧
      sim.growthDurationHours =
        config.growthDurationHours.getD cfg.defaultGrowthDurationHours ∧
      sim.growthCurve = config.growthCurve.getD cfg.defaultGrowthCurve ∧
      sim.initialViews = p.viewCount ∧
      sim.initialLikes = p.likeCount := by
  unfold startViralSimulation
  rw [hfind]
  exact ⟨_, rfl, rfl, rfl, rfl, rfl⟩

/-- Witness for C4 (amended) at the invalid request. -/
theorem startViralSimulation_registers_witness :
    ∃ sim, startViralSimulation demoCfg 0 zeroDb { sims := [] }
        invalidStartConfig =
        .ok ((true, sim),
          Registry.setSim { sims := [] } invalidStartConfig.targetMediaId sim) ∧
      sim.growthDurationHours = invalidStartConfig.growthDurationHours.getD
        demoCfg.defaultGrowthDurationHours ∧
      sim.growthCurve =
        invalidStartConfig.growthCurve.getD demoCfg.defaultGrowthCurve ∧
      sim.initialViews = zeroPost.viewCount ∧
      sim.initialLikes = zeroPost.likeCount :=
  startViralSimulation_registers demoCfg 0 zeroDb { sims := [] }
    invalidStartConfig zeroPost (by decide)

theorem generateRandomUserAgent_mem (r : ℚ) (h0 : 0 ≤ r) (h1 : r < 1) :
    generateRandomUserAgent r ∈ userAgents := by
  unfold generateRandomUserAgent
  have hlen : ((userAgents.length : ℚ)) = 6 := by norm_num [userAgents]
  have hge : (0 : ℚ) ≤ r * (userAgents.length : ℚ) :=
    mul_nonneg h0 (by rw [hlen]; norm_num)
  have hlt : r * (userAgents.length : ℚ) < 6 := by
    rw [hlen]; nlinarith
  rw [rat_floor_eq]
  have hf0 : 0 ≤ ⌊r * (userAgents.length : ℚ)⌋ := Int.floor_nonneg.mpr hge
  have hf6 : ⌊r * (userAgents.length : ℚ)⌋ < 6 :=
    Int.floor_lt.mpr (by exact_mod_cast hlt)
  have hidx : (⌊r * (userAgents.length : ℚ)⌋).toNat < userAgents.length := by
    have h6 : userAgents.length = 6 := by norm_num [userAgents]
    omega
  rw [List.getD_eq_getElem _ _ hidx]
  exact List.getElem_mem hidx

theorem viewDuration_bounds (r : ℚ) (minD maxD : Int) (h0 : 0 ≤ r)
    (h1 : r < 1) (hle : minD ≤ maxD) :
    minD ≤ Rat.floor (r * ((maxD - minD : Int) : ℚ)) + minD ∧
    Rat.floor (r * ((maxD - minD : Int) : ℚ)) + minD ≤ maxD := by
  rw [rat_floor_eq]
  have hd : (0 : ℚ) ≤ ((maxD - minD : Int) : ℚ) := by
    exact_mod_cast sub_nonneg.mpr hle
  have hge : (0 : ℚ) ≤ r * ((maxD - minD : Int) : ℚ) := mul_nonneg h0 hd
  have hf0 : 0 ≤ ⌊r * ((maxD - minD : Int) : ℚ)⌋ := Int.floor_nonneg.mpr hge
  have hub : r * ((maxD - minD : Int) : ℚ) ≤ ((maxD - minD : Int) : ℚ) := by
    nlinarith
  have hfub : ⌊r * ((maxD - minD : Int) : ℚ)⌋ ≤ maxD - minD := by
    have := Int.floor_le_floor hub
    rwa [Int.floor_intCast] at this
  exact ⟨by linarith, by linarith⟩

/-- C7: for `count > 0` and a non-empty bot pool, `generateSyntheticViews`
builds exactly `count` records; the selection is at most
`maxBotUsersPerBatch = 50` shuffled bot actors; the records cycle through the
selected ids; and every record is attributed to a selected bot actor and
carries the generated origin IP, a client signature from the fixed pool, and
a view duration inside the configured `[min, max]` range. -/
theorem generateSyntheticViews_spec (cfg : AnalyticsConfig)
    (rnd : ViewGenRand) (users : List User) (postId : Nat) (count : Nat)
    (hcount : 0 < count)
    (hbots : users.filter (fun u => u.isBot) ≠ [])
    (hcap : cfg.maxBotUsersPerBatch = 50)
    (hdle : cfg.minViewDuration ≤ cfg.maxViewDuration)
    (hua : ∀ i, 0 ≤ rnd.ua i ∧ rnd.ua i < 1)
    (hdr : ∀ i, 0 ≤ rnd.dur i ∧ rnd.dur i < 1) :
    (generateSyntheticViews cfg rnd users postId count).length = count ∧
    (selectedViewActors cfg rnd.shuffle users count).length ≤ 50 ∧
    ((generateSyntheticViews cfg rnd users postId count).map
      (fun r => r.userId)) = (List.range count).map (fun i =>
        ((selectedViewActors cfg rnd.shuffle users count).map
          (fun u => u.id)).getD (i % ((selectedViewActors cfg rnd.shuffle
            users count).map (fun u => u.id)).length) 0) ∧
    ∀ r ∈ generateSyntheticViews cfg rnd users postId count,
      r.postId = postId ∧
      r.userId ∈ ((selectedViewActors cfg rnd.shuffle users count).map
        (fun u => u.id)) ∧
      r.userId ∈ ((users.filter (fun u => u.isBot)).map (fun u => u.id)) ∧
      r.userAgent ∈ userAgents ∧
      cfg.minViewDuration ≤ r.duration ∧ r.duration ≤ cfg.maxViewDuration := by
  have hsellen : (selectedViewActors cfg rnd.shuffle users count).length =
      min (min count cfg.maxBotUsersPerBatch)
        (users.filter (fun u => u.isBot)).length := by
    unfold selectedViewActors
    rw [List.length_take,
      (shuffleArray_perm rnd.shuffle (users.filter (fun u =>
        u.isBot))).length_eq]
  have hbpos : 0 < (users.filter (fun u => u.isBot)).length :=
    List.length_pos.mpr hbots
  have hselpos : 0 < (selectedViewActors cfg rnd.shuffle users count).length := by
    rw [hsellen, hcap]
    omega
  refine ⟨by simp [generateSyntheticViews], ?_, ?_, ?_⟩
  · rw [hsellen, hcap]
    omega
  · simp [generateSyntheticViews, List.map_map]
  · intro r hr
    rw [generateSyntheticViews, List.mem_map] at hr
    obtain ⟨i, hi, hbuild⟩ := hr
    rw [← hbuild]
    have hlenmap : ((selectedViewActors cfg rnd.shuffle users count).map
        (fun u => u.id)).length =
        (selectedViewActors cfg rnd.shuffle users count).length :=
      List.length_map _ _
    have hmodlt : i % ((selectedViewActors cfg rnd.shuffle users count).map
        (fun u => u.id)).length <
        ((selectedViewActors cfg rnd.shuffle users count).map
          (fun u => u.id)).length := by
      rw [hlenmap]
      exact Nat.mod_lt i hselpos
    have hmem : ((selectedViewActors cfg rnd.shuffle users count).map
        (fun u => u.id)).getD (i % ((selectedViewActors cfg rnd.shuffle users
          count).map (fun u => u.id)).length) 0 ∈
        ((selectedViewActors cfg rnd.shuffle users count).map
          (fun u => u.id)) := by
      rw [List.getD_eq_getElem _ _ hmodlt]
      exact List.getElem_mem hmodlt
    refine ⟨rfl, hmem, ?_, generateRandomUserAgent_mem _ (hua i).1 (hua i).2,
      (viewDuration_bounds _ _ _ (hdr i).1 (hdr i).2 hdle).1,
      (viewDuration_bounds _ _ _ (hdr i).1 (hdr i).2 hdle).2⟩
    rw [List.mem_map] at hmem ⊢
    obtain ⟨u, hu, hid⟩ := hmem
    refine ⟨u, ?_, hid⟩
    have hsub : u ∈ shuffleArray rnd.shuffle (users.filter (fun u =>
        u.isBot)) := List.take_subset _ _ hu
    exact (shuffleArray_perm rnd.shuffle _).subset hsub

/-- Witness for C7: three records over a one-bot pool. -/
theorem generateSyntheticViews_spec_witness :
    (generateSyntheticViews demoCfg demoRand.viewGen demoDb.users 1 3).length
      = 3 ∧
    (selectedViewActors demoCfg demoRand.viewGen.shuffle demoDb.users
      3).length ≤ 50 ∧
    ((generateSyntheticViews demoCfg demoRand.viewGen demoDb.users 1 3).map
      (fun r => r.userId)) = (List.range 3).map (fun i =>
        ((selectedViewActors demoCfg demoRand.viewGen.shuffle demoDb.users
          3).map (fun u => u.id)).getD (i % ((selectedViewActors demoCfg
            demoRand.viewGen.shuffle demoDb.users 3).map
            (fun u => u.id)).length) 0) ∧
    ∀ r ∈ generateSyntheticViews demoCfg demoRand.viewGen demoDb.users 1 3,
      r.postId = 1 ∧
      r.userId ∈ ((selectedViewActors demoCfg demoRand.viewGen.shuffle
        demoDb.users 3).map (fun u => u.id)) ∧
      r.userId ∈ ((demoDb.users.filter (fun u => u.isBot)).map
        (fun u => u.id)) ∧
      r.userAgent ∈ userAgents ∧
      demoCfg.minViewDuration ≤ r.duration ∧
      r.duration ≤ demoCfg.maxViewDuration :=
  generateSyntheticViews_spec demoCfg demoRand.viewGen demoDb.users 1 3
    (by decide) (by decide) (by decide) (by decide)
    (fun _ => ⟨by norm_num [demoRand], by norm_num [demoRand]⟩)
    (fun _ => ⟨by norm_num [demoRand], by norm_num [demoRand]⟩)

/-- C8: like generation never emits a record whose actor is in the exclusion
set, attributes every record to a distinct bot actor, and produces
`min(count, #eligible)` records — fewer than `count` when fewer eligible
actors exist, without error. -/
theorem generateSyntheticLikes_spec (rnd : Nat → Nat) (users : List User)
    (postId : Nat) (count : Nat) (excluded : List Nat)
    (hnodup : (users.map (fun u => u.id)).Nodup) :
    (generateSyntheticLikes rnd users postId count excluded).length =
      min count (eligibleLikeActors users excluded).length ∧
    (∀ r ∈ generateSyntheticLikes rnd users postId count excluded,
      r.postId = postId ∧ r.userId ∉ excluded ∧
      r.userId ∈ ((users.filter (fun u => u.isBot)).map (fun u => u.id))) ∧
    ((generateSyntheticLikes rnd users postId count excluded).map
      (fun r => r.userId)).Nodup := by
  have hperm := shuffleArray_perm rnd (eligibleLikeActors users excluded)
  refine ⟨?_, ?_, ?_⟩
  · unfold generateSyntheticLikes
    rw [List.length_map, List.length_take, hperm.length_eq]
  · intro r hr
    rw [generateSyntheticLikes, List.mem_map] at hr
    obtain ⟨u, hu, hbuild⟩ := hr
    have hush : u ∈ shuffleArray rnd (eligibleLikeActors users excluded) :=
      List.take_subset _ _ hu
    have huel : u ∈ eligibleLikeActors users excluded := hperm.subset hush
    rw [eligibleLikeActors, List.mem_filter] at huel
    obtain ⟨humem, hup⟩ := huel
    rw [Bool.and_eq_true, Bool.not_eq_true'] at hup
    refine ⟨by rw [← hbuild], ?_, ?_⟩
    · rw [← hbuild]
      have hnotmem : u.id ∉ excluded := by
        have hc := hup.2
        simpa using hc
      exact hnotmem
    · rw [← hbuild, List.mem_map]
      exact ⟨u, List.mem_filter.mpr ⟨humem, hup.1⟩, rfl⟩
  · have h1 : ((eligibleLikeActors users excluded).map (fun u => u.id)).Nodup
        := by
      refine List.Nodup.sublist ?_ hnodup
      exact List.Sublist.map _ (List.filter_sublist users)
    have h2 : ((shuffleArray rnd (eligibleLikeActors users excluded)).map
        (fun u => u.id)).Nodup := ((hperm.map (fun u => u.id)).nodup_iff).mpr h1
    have h3 : (((shuffleArray rnd (eligibleLikeActors users excluded)).take
        count).map (fun u => u.id)).Nodup := by
      refine List.Nodup.sublist ?_ h2
      exact List.Sublist.map _ (List.take_sublist _ _)
    unfold generateSyntheticLikes
    rw [List.map_map]
    exact h3

/-- Witness for C8: a three-user pool (two bots, one excluded) asked for five
likes yields exactly one record, outside the exclusion set. -/
theorem generateSyntheticLikes_spec_witness :
    (generateSyntheticLikes (fun _ => 0) likePool 1 5 [8]).length =
      min 5 (eligibleLikeActors likePool [8]).length ∧
    (∀ r ∈ generateSyntheticLikes (fun _ => 0) likePool 1 5 [8],
      r.postId = 1 ∧ r.userId ∉ [8] ∧
      r.userId ∈ ((likePool.filter (fun u => u.isBot)).map (fun u => u.id))) ∧
    ((generateSyntheticLikes (fun _ => 0) likePool 1 5 [8]).map
      (fun r => r.userId)).Nodup :=
  generateSyntheticLikes_spec (fun _ => 0) likePool 1 5 [8] (by decide)

end Viewbot

